import Mathlib

/-!
Shallow embedding of the capture-and-pipeline orchestrator of
`src/src/App.js` (the `App` component of the voice-ai-frontend repository),
together with proofs about its recording lifecycle, chunk aggregation and
three-stage remote pipeline (transcribe, refine, answer).

Modelling conventions:
* React state fields become fields of `AppState`; a `setX(v)` call becomes a
  record update.  Each event handler / async function becomes a Lean function
  from the pre-state (plus the network outcome it awaits) to the post-state,
  paired with the request it issued, if any (`none` = no network call).
* Binary blobs (`event.data`, `Blob`) are byte lists (`List Nat`); a blob
  built from a chunk list is their concatenation (`List.flatten`), and `size`
  is the list length.
* A `fetch` outcome is `FetchResult β`: the promise rejected with an error
  message, or an HTTP response with `ok = false`, or an `ok` response whose
  JSON body parsed to `β`.  JSON fields that may be absent are `Option`s.
* JavaScript `a || b` on strings (where only `""`/absence is falsy in the
  relevant uses) is `jsOrString` / `jsOrOpt`.
-/

/-- State of the `MediaRecorder` object (`mediaRecorderRef.current.state`);
the app never pauses, so only `inactive` and `recording` occur. -/
inductive RecState where
  | inactive
  | recording
deriving DecidableEq, Repr

/-- The React state of the `App` component, plus the `MediaRecorder` ref
(`none` when `mediaRecorderRef.current` is null). -/
structure AppState where
  isRecording : Bool
  audioChunks : List (List Nat)
  transcribedText : String
  refinedQuestion : String
  aiAnswer : String
  statusMessage : String
  isLoading : Bool
  isRefining : Bool
  mediaRecorder : Option RecState
deriving DecidableEq, Repr

/-- JavaScript `a || b` for strings: `""` is falsy. -/
def jsOrString (a b : String) : String :=
  if a = "" then b else a

/-- JavaScript `a || b` where `a` is a possibly-absent string field:
absent (`undefined`) and `""` are both falsy. -/
def jsOrOpt (a : Option String) (b : String) : String :=
  match a with
  | some v => jsOrString v b
  | none => b

/-- Does the character list start with the given pattern? -/
def charsStartWith : List Char → List Char → Bool
  | [], _ => true
  | _ :: _, [] => false
  | p :: ps, c :: cs => p = c && charsStartWith ps cs

/-- Does the character list contain the pattern as a contiguous run? -/
def charsContain (pat : List Char) : List Char → Bool
  | [] => pat.isEmpty
  | c :: cs => charsStartWith pat (c :: cs) || charsContain pat cs

/-- JavaScript `s.includes(pat)`. -/
def strContains (s pat : String) : Bool :=
  charsContain pat.toList s.toList

/-- The deployed backend base URL (`BACKEND_URL` constant in App.js). -/
def BACKEND_URL : String := "https://voice-ai-backend-euw9.onrender.com"

/-- Outcome of one `fetch` call, as observed by the `await`ing code:
the promise rejected (network-level failure, e.g. "Failed to fetch"), or a
response with `ok = false` (non-2xx status, whose body may or may not parse
to JSON carrying a `message` field), or an `ok` response with parsed body
`β`. -/
inductive FetchResult (β : Type) where
  | netError (msg : String)
  | httpError (status : Nat) (statusText : String) (jsonMessage : Option String)
  | ok (body : β)
deriving DecidableEq, Repr

/-- Is the fetch outcome a failure (rejection or non-ok response)? -/
def FetchResult.isFailure {β : Type} : FetchResult β → Bool
  | .ok _ => false
  | _ => true

/-- `errorData.message || response.statusText` where
`errorData = await response.json().catch(() => (message: statusText))`:
a parse failure and an absent `message` field both fall back to the
status text. -/
def errMsgFrom (statusText : String) (jsonMessage : Option String) : String :=
  jsOrOpt jsonMessage statusText

/-- `startRecording` on its successful path (an audio stream is available and
the `MediaRecorder` starts without throwing): clears the chunk buffer and all
downstream result fields, marks recording, and starts a recorder delivering
1-second chunks.  (The re-acquisition and recorder-creation failure branches
only write a status message and are not needed by any claim.) -/
def startRecording (s : AppState) : AppState :=
  { s with
    audioChunks := []
    transcribedText := ""
    refinedQuestion := ""
    aiAnswer := ""
    isRecording := true
    statusMessage := "Recording tab/window audio..."
    isLoading := false
    mediaRecorder := some RecState.recording }

/-- The `ondataavailable` handler: a chunk with `size > 0` is appended to
`audioChunks`; a zero-size chunk is dropped. -/
def ondataavailable (s : AppState) (data : List Nat) : AppState :=
  if 0 < data.length then { s with audioChunks := s.audioChunks ++ [data] } else s

/-- Delivery of a sequence of chunks, in arrival order. -/
def deliverChunks (s : AppState) (cs : List (List Nat)) : AppState :=
  cs.foldl ondataavailable s

/-- `stopRecording`: only when a recorder exists and its state is
`recording` does it stop the recorder, clear `isRecording`, write the
processing status and set the loading flag; the returned boolean records
whether the `onstop` callback will fire (handing the finalized payload to
`sendAudioForProcessing`).  Otherwise nothing happens. -/
def stopRecording (s : AppState) : AppState × Bool :=
  match s.mediaRecorder with
  | some RecState.recording =>
      ({ s with
          mediaRecorder := some RecState.inactive
          isRecording := false
          statusMessage := "Processing tab audio..."
          isLoading := true }, true)
  | _ => (s, false)

/-- The multipart request `POST /api/stt` issues: one binary field named
`audio` holding the finalized payload, filename `recording.webm`. -/
structure SttRequest where
  audio : List Nat
  filename : String
deriving DecidableEq, Repr

/-- Parsed JSON body of an `ok` STT response; the `transcription` field may
be absent. -/
structure SttBody where
  transcription : Option String
deriving DecidableEq, Repr

/-- `sendAudioForProcessing`: builds the blob from `audioChunks`; a
zero-size blob short-circuits with the "no audio" status and clears the
loading flag without any network call.  Otherwise the STT request is sent
and the awaited outcome handled: on `ok`, the transcription (or a default)
is stored and the ready status written; on a non-ok response the thrown
`STT API error: <status> - <message>` is caught and surfaced; on a network
rejection whose message includes "Failed to fetch" the connectivity status
is written instead.  The `finally` block clears `isLoading` and the chunk
buffer on every path that reached the `try`.  (The interim
"Sending tab audio for transcription..." status is overwritten on every
path before the function returns, so only the final write is modelled.) -/
def sendAudioForProcessing (s : AppState) (resp : FetchResult SttBody) :
    AppState × Option SttRequest :=
  let audioBlob := s.audioChunks.flatten
  if audioBlob.length = 0 then
    ({ s with
        statusMessage := "No audio recorded from the tab. Please ensure audio is playing and you record for a sufficient duration."
        isLoading := false }, none)
  else
    let req : SttRequest := { audio := audioBlob, filename := "recording.webm" }
    match resp with
    | .ok body =>
        ({ s with
            transcribedText := jsOrOpt body.transcription "No transcription received."
            statusMessage := "Transcription received. You can now refine it or get an AI answer."
            isLoading := false
            audioChunks := [] }, some req)
    | .httpError status statusText jsonMessage =>
        let thrown := "STT API error: " ++ toString status ++ " - " ++ errMsgFrom statusText jsonMessage
        let msg :=
          if strContains thrown "Failed to fetch" then
            "Error: Could not connect to backend. Ensure backend is running at " ++ BACKEND_URL ++ " and check CORS."
          else
            "Error during transcription: " ++ thrown ++ ". Please try again."
        ({ s with statusMessage := msg, isLoading := false, audioChunks := [] }, some req)
    | .netError emsg =>
        let msg :=
          if strContains emsg "Failed to fetch" then
            "Error: Could not connect to backend. Ensure backend is running at " ++ BACKEND_URL ++ " and check CORS."
          else
            "Error during transcription: " ++ emsg ++ ". Please try again."
        ({ s with statusMessage := msg, isLoading := false, audioChunks := [] }, some req)

/-- The JSON body `POST /api/openai` receives: `question: string`. -/
structure AnswerRequest where
  question : String
deriving DecidableEq, Repr

/-- Parsed JSON body of an `ok` answer response; the `answer` field may be
absent. -/
structure AnswerBody where
  answer : Option String
deriving DecidableEq, Repr

/-- The synchronous part of `getAiAnswer`, up to the `fetch`:
`questionToSend = refinedQuestion || transcribedText`; when it is empty the
function writes the precondition status and returns without a network call;
otherwise it sets the loading flag, writes the sending status, clears the
previous answer and issues the request. -/
def getAiAnswerBegin (s : AppState) : AppState × Option AnswerRequest :=
  let questionToSend := jsOrString s.refinedQuestion s.transcribedText
  if questionToSend = "" then
    ({ s with statusMessage := "Please transcribe audio or refine a question first." }, none)
  else
    ({ s with
        isLoading := true
        statusMessage := "Sending question to AI..."
        aiAnswer := "" },
     some { question := questionToSend })

/-- The continuation of `getAiAnswer` after the awaited `fetch` resolves:
on `ok`, the answer (or a default) is stored and the received status
written; on a non-ok response the thrown
`OpenAI API error: <status> - <message>` is caught and surfaced; on a
network rejection its message is surfaced.  The `finally` block clears
`isLoading` on every path. -/
def getAiAnswerResolve (s : AppState) (resp : FetchResult AnswerBody) : AppState :=
  match resp with
  | .ok body =>
      { s with
          aiAnswer := jsOrOpt body.answer "No answer received from AI."
          statusMessage := "AI Answer received!"
          isLoading := false }
  | .httpError status statusText jsonMessage =>
      let thrown := "OpenAI API error: " ++ toString status ++ " - " ++ errMsgFrom statusText jsonMessage
      { s with
          statusMessage := "Error getting AI answer: " ++ thrown ++ ". Please try again."
          isLoading := false }
  | .netError emsg =>
      { s with
          statusMessage := "Error getting AI answer: " ++ emsg ++ ". Please try again."
          isLoading := false }

/-- The whole `getAiAnswer` run: the synchronous prefix, then, when a
request was issued, the handling of its outcome. -/
def getAiAnswer (s : AppState) (resp : FetchResult AnswerBody) :
    AppState × Option AnswerRequest :=
  match getAiAnswerBegin s with
  | (s1, none) => (s1, none)
  | (s1, some req) => (getAiAnswerResolve s1 resp, some req)

/-- One `parts` entry of the Gemini request payload. -/
structure GeminiPart where
  text : String
deriving DecidableEq, Repr

/-- One `contents` entry of the Gemini request payload. -/
structure GeminiContentMsg where
  role : String
  parts : List GeminiPart
deriving DecidableEq, Repr

/-- The JSON payload sent to the Gemini endpoint. -/
structure GeminiRequest where
  contents : List GeminiContentMsg
deriving DecidableEq, Repr

/-- One `parts` entry of a Gemini response candidate; its `text` field may
be absent (e.g. a non-text part). -/
structure GeminiResponsePart where
  text : Option String
deriving DecidableEq, Repr

/-- The `content` object of a Gemini response candidate; the `parts` array
may be absent. -/
structure GeminiContent where
  parts : Option (List GeminiResponsePart)
deriving DecidableEq, Repr

/-- One entry of a Gemini response's `candidates` array; its `content`
object may be absent. -/
structure GeminiCandidate where
  content : Option GeminiContent
deriving DecidableEq, Repr

/-- Parsed JSON body of an `ok` Gemini response; the `candidates` array
itself may be absent. -/
structure GeminiBody where
  candidates : Option (List GeminiCandidate)
deriving DecidableEq, Repr

/-- The condition the success branch of `handleRefineQuestion` checks:
`result.candidates && result.candidates.length > 0 &&
result.candidates[0].content && result.candidates[0].content.parts &&
result.candidates[0].content.parts.length > 0`. -/
def hasUsableCandidate (b : GeminiBody) : Bool :=
  match b.candidates with
  | some (c0 :: _) =>
      match c0.content with
      | some content =>
          match content.parts with
          | some (_ :: _) => true
          | _ => false
      | none => false
  | _ => false

/-- The fixed instruction template the refine stage wraps around the
transcript. -/
def refineInstruction (transcript : String) : String :=
  "Refine the following question to be more clear, concise, and suitable for an AI assistant. Focus on making it a direct query. Do not add any conversational filler. Just the refined question:\n\n\"" ++ transcript ++ "\""

/-- The synchronous part of `handleRefineQuestion`, up to the `fetch`: when
the transcript is empty it writes the precondition status and returns
without a network call; otherwise it sets the refining flag, writes the
refining status, clears the previous refined question and issues the
Gemini request built from the instruction template and the transcript. -/
def handleRefineQuestionBegin (s : AppState) : AppState × Option GeminiRequest :=
  if s.transcribedText = "" then
    ({ s with statusMessage := "Please transcribe audio first to refine a question." }, none)
  else
    ({ s with
        isRefining := true
        statusMessage := "Refining question with Gemini..."
        refinedQuestion := "" },
     some { contents := [{ role := "user", parts := [{ text := refineInstruction s.transcribedText }] }] })

/-- The continuation of `handleRefineQuestion` after the awaited `fetch`
resolves: on `ok`, when the first candidate has a content with a non-empty
parts array, `parts[0].text` is stored as the refined question (an absent
`text` stores `undefined`, which every later use treats exactly like `""`,
so it is modelled as `""`) and the success status is written; otherwise the
"no valid refinement" status is written.  A non-ok response throws
`Gemini API error: <status> - <message>`, which is caught and surfaced, as
is a network rejection.  The `finally` block clears `isRefining` on every
path. -/
def handleRefineQuestionResolve (s : AppState) (resp : FetchResult GeminiBody) : AppState :=
  match resp with
  | .ok result =>
      let s2 :=
        match result.candidates with
        | some (c0 :: _) =>
            match c0.content with
            | some content =>
                match content.parts with
                | some (p0 :: _) =>
                    { s with
                        refinedQuestion := (match p0.text with | some t => t | none => "")
                        statusMessage := "Question refined by Gemini! You can now get an AI answer." }
                | _ => { s with statusMessage := "Gemini did not return a valid refinement. Try again." }
            | none => { s with statusMessage := "Gemini did not return a valid refinement. Try again." }
        | _ => { s with statusMessage := "Gemini did not return a valid refinement. Try again." }
      { s2 with isRefining := false }
  | .httpError status statusText jsonMessage =>
      let thrown := "Gemini API error: " ++ toString status ++ " - " ++ errMsgFrom statusText jsonMessage
      { s with
          statusMessage := "Error refining question: " ++ thrown ++ "."
          isRefining := false }
  | .netError emsg =>
      { s with
          statusMessage := "Error refining question: " ++ emsg ++ "."
          isRefining := false }

/-- The whole `handleRefineQuestion` run: the synchronous prefix, then,
when a request was issued, the handling of its outcome. -/
def handleRefineQuestion (s : AppState) (resp : FetchResult GeminiBody) :
    AppState × Option GeminiRequest :=
  match handleRefineQuestionBegin s with
  | (s1, none) => (s1, none)
  | (s1, some req) => (handleRefineQuestionResolve s1 resp, some req)

/-- The busy flag the transcribe stage sets and the recording buttons read:
the shared `isLoading`. -/
def transcribeBusy (s : AppState) : Bool := s.isLoading

/-- The busy flag the refine stage sets and its button reads:
`isRefining`. -/
def refineBusy (s : AppState) : Bool := s.isRefining

/-- The busy flag the answer stage sets and its button reads: the shared
`isLoading` (the same field the transcribe stage uses). -/
def answerBusy (s : AppState) : Bool := s.isLoading

/-- Does a Gemini response candidate contain a part with a `text` field?
Formalises the wording of the claim about soft refinement failures
("contains no candidate with text"); it is deliberately NOT the condition
the code checks (`hasUsableCandidate`), so the two can be compared. -/
def candidateHasText (c : GeminiCandidate) : Bool :=
  match c.content with
  | some content =>
      match content.parts with
      | some ps => ps.any (fun p => p.text.isSome)
      | none => false
  | none => false

/-- Does a Gemini response body contain any candidate with text?  See
`candidateHasText`. -/
def bodyHasCandidateWithText (b : GeminiBody) : Bool :=
  match b.candidates with
  | some cs => cs.any candidateHasText
  | none => false

/-- The initial state of the component: no recorder, all result fields
empty, the mount-time status message. -/
def idleState : AppState :=
  { isRecording := false
    audioChunks := []
    transcribedText := ""
    refinedQuestion := ""
    aiAnswer := ""
    statusMessage := "Click \"Start Recording\" to begin capturing tab audio."
    isLoading := false
    isRefining := false
    mediaRecorder := none }

/-- A state after a full cycle: a transcript and a stored answer exist, no
stage is busy. -/
def answeredState : AppState :=
  { idleState with
      transcribedText := "what is love"
      aiAnswer := "Baby do not hurt me"
      statusMessage := "AI Answer received!"
      mediaRecorder := some RecState.inactive }

/-- `answeredState` after a successful refinement: both the transcript and
the refined question are non-empty. -/
def refinedState : AppState :=
  { answeredState with refinedQuestion := "What is the definition of love" }

/-- A state right after `stopRecording` fired with three recorded chunks in
the buffer. -/
def recordedState : AppState :=
  { idleState with
      audioChunks := [[1, 2, 3]]
      isLoading := true
      statusMessage := "Processing tab audio..."
      mediaRecorder := some RecState.inactive }

/-- Three delivered chunks of sizes 4, 4 and 2. -/
def demoChunks : List (List Nat) := [[1, 2, 3, 4], [5, 6, 7, 8], [9, 10]]

/-- A well-formed Gemini success body whose single candidate's single part
has no `text` field. -/
def c8Body : GeminiBody :=
  { candidates := some [{ content := some { parts := some [{ text := none }] } }] }

/-- A well-formed Gemini success body with an empty `candidates` array. -/
def c8EmptyBody : GeminiBody := { candidates := some [] }

/-- Delivering a chunk sequence appends exactly its positive-size chunks, in
arrival order, and changes no other field. -/
theorem deliverChunks_eq (s : AppState) (cs : List (List Nat)) :
    deliverChunks s cs =
      { s with audioChunks := s.audioChunks ++ cs.filter (fun c => decide (0 < c.length)) } := by
  induction cs generalizing s with
  | nil => simp [deliverChunks]
  | cons c cs ih =>
      have hstep : deliverChunks s (c :: cs) = deliverChunks (ondataavailable s c) cs := rfl
      by_cases h : 0 < c.length
      · have h1 : ondataavailable s c = { s with audioChunks := s.audioChunks ++ [c] } := by
          simp [ondataavailable, h]
        rw [hstep, h1, ih]
        simp [List.filter_cons, h]
      · have h1 : ondataavailable s c = s := by
          simp [ondataavailable, h]
        rw [hstep, h1, ih]
        simp [List.filter_cons, h]

/-- C5: every successful `startRecording` run clears the chunk buffer and
resets the transcript, refined-question and answer fields to empty, and
chunks delivered afterwards land in the cleared buffer (only the new
positive-size chunks, in order) while those result fields stay empty. -/
theorem startRecordingResetsBeforeAppend (s : AppState) (cs : List (List Nat)) :
    (startRecording s).audioChunks = [] ∧
    (startRecording s).transcribedText = "" ∧
    (startRecording s).refinedQuestion = "" ∧
    (startRecording s).aiAnswer = "" ∧
    (deliverChunks (startRecording s) cs).audioChunks = cs.filter (fun c => decide (0 < c.length)) ∧
    (deliverChunks (startRecording s) cs).transcribedText = "" ∧
    (deliverChunks (startRecording s) cs).refinedQuestion = "" ∧
    (deliverChunks (startRecording s) cs).aiAnswer = "" := by
  simp [deliverChunks_eq, startRecording]

/-- C6: `stopRecording` in any state where the recorder is absent or not
`recording` is a no-op: the state is returned unchanged and no payload is
handed to the pipeline (`false` = the `onstop` callback never fires). -/
theorem stopRecordingNoOpOutsideRecording (s : AppState)
    (h : s.mediaRecorder ≠ some RecState.recording) :
    stopRecording s = (s, false) := by
  rcases hrec : s.mediaRecorder with _ | r
  · simp [stopRecording, hrec]
  · cases r
    · simp [stopRecording, hrec]
    · exact absurd hrec h

theorem stopRecordingNoOpOutsideRecordingWitness :
    idleState.mediaRecorder ≠ some RecState.recording ∧
    stopRecording idleState = (idleState, false) :=
  ⟨by decide, stopRecordingNoOpOutsideRecording idleState (by decide)⟩

/-- C10: whenever the transcription stage runs on a non-empty payload, the
chunk buffer is cleared, whether the remote call succeeds, returns a non-ok
response, or fails at transport level. -/
theorem transcriptionRunClearsChunkBuffer (s : AppState) (resp : FetchResult SttBody)
    (h : s.audioChunks.flatten.length ≠ 0) :
    (sendAudioForProcessing s resp).1.audioChunks = [] := by
  have h' : (List.map List.length s.audioChunks).sum ≠ 0 := by
    simpa [List.length_flatten] using h
  cases resp <;> simp [sendAudioForProcessing, h']

theorem transcriptionRunClearsChunkBufferWitness :
    recordedState.audioChunks.flatten.length ≠ 0 ∧
    (sendAudioForProcessing recordedState
      (FetchResult.netError "Failed to fetch")).1.audioChunks = [] :=
  ⟨by decide,
   transcriptionRunClearsChunkBuffer recordedState (FetchResult.netError "Failed to fetch")
     (by decide)⟩

/-- C7: zero-size chunks are dropped by the delivery handler (state
unchanged); positive-size chunks are appended in arrival order; and when
the total appended size is non-zero the transcription stage issues exactly
one request whose body is the concatenation of the buffer in append order,
whose size is the sum of the chunk sizes. -/
theorem chunkAggregationAndPayload (s : AppState) (c : List Nat) (cs : List (List Nat))
    (resp : FetchResult SttBody)
    (h : (deliverChunks s cs).audioChunks.flatten.length ≠ 0) :
    (c.length = 0 → ondataavailable s c = s) ∧
    (deliverChunks s cs).audioChunks = s.audioChunks ++ cs.filter (fun d => decide (0 < d.length)) ∧
    (sendAudioForProcessing (deliverChunks s cs) resp).2 =
      some { audio := (deliverChunks s cs).audioChunks.flatten, filename := "recording.webm" } ∧
    (deliverChunks s cs).audioChunks.flatten.length =
      ((deliverChunks s cs).audioChunks.map List.length).sum := by
  have h' : (List.map List.length (deliverChunks s cs).audioChunks).sum ≠ 0 := by
    simpa [List.length_flatten] using h
  refine ⟨?_, ?_, ?_, ?_⟩
  · intro hc
    simp [ondataavailable, hc]
  · rw [deliverChunks_eq]
  · cases resp <;> simp [sendAudioForProcessing, h']
  · simp [List.length_flatten]

theorem chunkAggregationAndPayloadWitness :
    (deliverChunks (startRecording idleState) demoChunks).audioChunks.flatten.length ≠ 0 ∧
    ((([] : List Nat).length = 0 →
        ondataavailable (startRecording idleState) [] = startRecording idleState) ∧
     (deliverChunks (startRecording idleState) demoChunks).audioChunks =
       (startRecording idleState).audioChunks ++
         demoChunks.filter (fun d => decide (0 < d.length)) ∧
     (sendAudioForProcessing (deliverChunks (startRecording idleState) demoChunks)
        (FetchResult.ok { transcription := some "hello" })).2 =
       some { audio := (deliverChunks (startRecording idleState) demoChunks).audioChunks.flatten,
              filename := "recording.webm" } ∧
     (deliverChunks (startRecording idleState) demoChunks).audioChunks.flatten.length =
       ((deliverChunks (startRecording idleState) demoChunks).audioChunks.map List.length).sum) :=
  ⟨by decide,
   chunkAggregationAndPayload (startRecording idleState) [] demoChunks
     (FetchResult.ok { transcription := some "hello" }) (by decide)⟩

/-- The request `getAiAnswer` issues: none when both inputs are empty,
otherwise one request carrying `refinedQuestion || transcribedText`. -/
theorem getAiAnswer_request (s : AppState) (resp : FetchResult AnswerBody) :
    (getAiAnswer s resp).2 =
      if jsOrString s.refinedQuestion s.transcribedText = "" then none
      else some { question := jsOrString s.refinedQuestion s.transcribedText } := by
  by_cases hq : jsOrString s.refinedQuestion s.transcribedText = "" <;>
    simp [getAiAnswer, getAiAnswerBegin, hq]

/-- C2: whenever `getAiAnswer` issues its network request, the `question`
field sent equals the refined text when that is non-empty and the raw
transcript otherwise; in particular a non-empty refined text always
overrides the transcript. -/
theorem answerQuestionRefinedOverridesRaw (s : AppState) (resp : FetchResult AnswerBody)
    (req : AnswerRequest) (h : (getAiAnswer s resp).2 = some req) :
    req.question = (if s.refinedQuestion = "" then s.transcribedText else s.refinedQuestion) ∧
    (s.refinedQuestion ≠ "" → req.question = s.refinedQuestion) := by
  rw [getAiAnswer_request] at h
  by_cases hq : jsOrString s.refinedQuestion s.transcribedText = ""
  · simp [hq] at h
  · simp only [hq, if_false, reduceIte, Option.some.injEq] at h
    have hmain : req.question = (if s.refinedQuestion = "" then s.transcribedText else s.refinedQuestion) := by
      rw [← h]
      simp [jsOrString]
    refine ⟨hmain, fun hr => ?_⟩
    rw [hmain, if_neg hr]

theorem answerQuestionRefinedOverridesRawWitness :
    (getAiAnswer refinedState (FetchResult.ok { answer := some "An emotion" })).2 =
      some { question := "What is the definition of love" } ∧
    (({ question := "What is the definition of love" } : AnswerRequest).question =
       (if refinedState.refinedQuestion = "" then refinedState.transcribedText
        else refinedState.refinedQuestion) ∧
     (refinedState.refinedQuestion ≠ "" →
       ({ question := "What is the definition of love" } : AnswerRequest).question =
         refinedState.refinedQuestion)) :=
  ⟨by decide,
   answerQuestionRefinedOverridesRaw refinedState (FetchResult.ok { answer := some "An emotion" })
     { question := "What is the definition of love" } (by decide)⟩

/-- C3: with a zero-size payload the transcription stage writes the
"no audio" status, clears its busy flag and issues no network call; with an
empty transcript the refine stage writes its precondition status and issues
no network call; with both transcript and refined text empty the answer
stage writes its precondition status and issues no network call.  The full
state equalities show nothing else changes. -/
theorem emptyInputShortCircuitsAllStages (s1 s2 s3 : AppState)
    (r1 : FetchResult SttBody) (r2 : FetchResult GeminiBody) (r3 : FetchResult AnswerBody)
    (h1 : s1.audioChunks.flatten.length = 0)
    (h2 : s2.transcribedText = "")
    (h3 : s3.transcribedText = "") (h4 : s3.refinedQuestion = "") :
    sendAudioForProcessing s1 r1 =
      ({ s1 with
          statusMessage := "No audio recorded from the tab. Please ensure audio is playing and you record for a sufficient duration."
          isLoading := false }, none) ∧
    handleRefineQuestion s2 r2 =
      ({ s2 with statusMessage := "Please transcribe audio first to refine a question." }, none) ∧
    getAiAnswer s3 r3 =
      ({ s3 with statusMessage := "Please transcribe audio or refine a question first." }, none) := by
  refine ⟨?_, ?_, ?_⟩
  · have h1' : (List.map List.length s1.audioChunks).sum = 0 := by
      simpa [List.length_flatten] using h1
    simp [sendAudioForProcessing, h1']
  · simp [handleRefineQuestion, handleRefineQuestionBegin, h2]
  · simp [getAiAnswer, getAiAnswerBegin, jsOrString, h3, h4]

theorem emptyInputShortCircuitsAllStagesWitness :
    idleState.audioChunks.flatten.length = 0 ∧
    idleState.transcribedText = "" ∧
    idleState.transcribedText = "" ∧
    idleState.refinedQuestion = "" ∧
    (sendAudioForProcessing idleState (FetchResult.ok { transcription := some "hello" }) =
      ({ idleState with
          statusMessage := "No audio recorded from the tab. Please ensure audio is playing and you record for a sufficient duration."
          isLoading := false }, none) ∧
     handleRefineQuestion idleState (FetchResult.ok c8EmptyBody) =
      ({ idleState with statusMessage := "Please transcribe audio first to refine a question." }, none) ∧
     getAiAnswer idleState (FetchResult.ok { answer := some "hi" }) =
      ({ idleState with statusMessage := "Please transcribe audio or refine a question first." }, none)) :=
  ⟨rfl, rfl, rfl, rfl,
   emptyInputShortCircuitsAllStages idleState idleState idleState
     (FetchResult.ok { transcription := some "hello" }) (FetchResult.ok c8EmptyBody)
     (FetchResult.ok { answer := some "hi" }) rfl rfl rfl rfl⟩

/-- C1 fails as stated: `getAiAnswer` clears the stored answer before the
network call, so when the call then fails the previously stored answer
("Baby do not hurt me") has been wiped to the empty string instead of being
left untouched. -/
theorem answerFailureDropsStoredAnswer :
    answeredState.aiAnswer = "Baby do not hurt me" ∧
    (getAiAnswer answeredState
      (FetchResult.httpError 500 "Internal Server Error" (some "boom"))).1.aiAnswer = "" := by
  decide

/-- C1 as amended: when the answer stage issues its request and the call
fails (transport error or non-ok response), the failure is surfaced as the
StatusMessage — exactly the caught error message wrapped in the
`Error getting AI answer: ...` template — the transcript and the refined
question are left untouched and the busy flag is cleared; the answer
field, however, was cleared at stage start and therefore ends empty, so a
previously stored answer is lost. -/
theorem answerFailureLeavesEarlierStagesIntact (s : AppState) (resp : FetchResult AnswerBody)
    (hq : jsOrString s.refinedQuestion s.transcribedText ≠ "")
    (hf : resp.isFailure = true) :
    (getAiAnswer s resp).1.transcribedText = s.transcribedText ∧
    (getAiAnswer s resp).1.refinedQuestion = s.refinedQuestion ∧
    (getAiAnswer s resp).1.aiAnswer = "" ∧
    (getAiAnswer s resp).1.isLoading = false ∧
    (getAiAnswer s resp).1.isRefining = s.isRefining ∧
    (getAiAnswer s resp).1.isRecording = s.isRecording ∧
    (getAiAnswer s resp).1.audioChunks = s.audioChunks ∧
    (getAiAnswer s resp).1.statusMessage =
      (match resp with
       | FetchResult.netError emsg =>
           "Error getting AI answer: " ++ emsg ++ ". Please try again."
       | FetchResult.httpError status statusText jsonMessage =>
           "Error getting AI answer: " ++
             ("OpenAI API error: " ++ toString status ++ " - " ++ errMsgFrom statusText jsonMessage) ++
             ". Please try again."
       | FetchResult.ok _ => s.statusMessage) := by
  cases resp with
  | ok body => simp [FetchResult.isFailure] at hf
  | httpError status statusText jsonMessage =>
      simp [getAiAnswer, getAiAnswerBegin, getAiAnswerResolve, hq]
  | netError emsg =>
      simp [getAiAnswer, getAiAnswerBegin, getAiAnswerResolve, hq]

theorem answerFailureLeavesEarlierStagesIntactWitness :
    jsOrString answeredState.refinedQuestion answeredState.transcribedText ≠ "" ∧
    (FetchResult.netError "Failed to fetch" : FetchResult AnswerBody).isFailure = true ∧
    ((getAiAnswer answeredState (FetchResult.netError "Failed to fetch")).1.transcribedText =
        answeredState.transcribedText ∧
     (getAiAnswer answeredState (FetchResult.netError "Failed to fetch")).1.refinedQuestion =
        answeredState.refinedQuestion ∧
     (getAiAnswer answeredState (FetchResult.netError "Failed to fetch")).1.aiAnswer = "" ∧
     (getAiAnswer answeredState (FetchResult.netError "Failed to fetch")).1.isLoading = false ∧
     (getAiAnswer answeredState (FetchResult.netError "Failed to fetch")).1.isRefining =
        answeredState.isRefining ∧
     (getAiAnswer answeredState (FetchResult.netError "Failed to fetch")).1.isRecording =
        answeredState.isRecording ∧
     (getAiAnswer answeredState (FetchResult.netError "Failed to fetch")).1.audioChunks =
        answeredState.audioChunks ∧
     (getAiAnswer answeredState (FetchResult.netError "Failed to fetch")).1.statusMessage =
        "Error getting AI answer: " ++ "Failed to fetch" ++ ". Please try again.") :=
  ⟨by decide, rfl,
   answerFailureLeavesEarlierStagesIntact answeredState (FetchResult.netError "Failed to fetch")
     (by decide) rfl⟩

/-- The refine stage continuation touches only `refinedQuestion`,
`statusMessage` and `isRefining`: every other field is preserved, whatever
the outcome. -/
theorem handleRefineQuestionResolve_frame (s : AppState) (r : FetchResult GeminiBody) :
    (handleRefineQuestionResolve s r).isLoading = s.isLoading ∧
    (handleRefineQuestionResolve s r).transcribedText = s.transcribedText ∧
    (handleRefineQuestionResolve s r).audioChunks = s.audioChunks ∧
    (handleRefineQuestionResolve s r).isRecording = s.isRecording ∧
    (handleRefineQuestionResolve s r).aiAnswer = s.aiAnswer ∧
    (handleRefineQuestionResolve s r).mediaRecorder = s.mediaRecorder := by
  cases r with
  | netError emsg => simp [handleRefineQuestionResolve]
  | httpError status statusText jsonMessage => simp [handleRefineQuestionResolve]
  | ok body =>
      cases hc : body.candidates with
      | none => simp [handleRefineQuestionResolve, hc]
      | some cands =>
          cases cands with
          | nil => simp [handleRefineQuestionResolve, hc]
          | cons c0 rest =>
              cases hct : c0.content with
              | none => simp [handleRefineQuestionResolve, hc, hct]
              | some ct =>
                  cases hp : ct.parts with
                  | none => simp [handleRefineQuestionResolve, hc, hct, hp]
                  | some ps =>
                      cases ps with
                      | nil => simp [handleRefineQuestionResolve, hc, hct, hp]
                      | cons p0 pr => simp [handleRefineQuestionResolve, hc, hct, hp]

/-- C4 fails as stated: the transcribe and answer stages do not each track
their own flag — both use the shared `isLoading`.  Concretely, the answer
stage's synchronous prefix (which per the claim sets only the answer
stage's busy flag) flips the busy flag observed for the transcribe stage
from `false` to `true`, while the refine flag is untouched. -/
theorem answerBusySetMarksTranscribeBusy :
    transcribeBusy answeredState = false ∧
    transcribeBusy (getAiAnswerBegin answeredState).1 = true ∧
    refineBusy (getAiAnswerBegin answeredState).1 = refineBusy answeredState := by
  decide

/-- C4 as amended: the refine stage has its own busy flag (`isRefining`),
independent of the single `isLoading` flag the transcribe and answer
stages share.  No refine-stage operation ever changes `isLoading`, and no
transcribe- or answer-stage operation ever changes `isRefining`; the
transcribe and answer stages, however, observe one and the same flag. -/
theorem refineBusyIndependentOfSharedLoadingFlag (s : AppState)
    (r1 : FetchResult SttBody) (r2 : FetchResult GeminiBody) (r3 : FetchResult AnswerBody) :
    (handleRefineQuestionBegin s).1.isLoading = s.isLoading ∧
    (handleRefineQuestion s r2).1.isLoading = s.isLoading ∧
    (getAiAnswerBegin s).1.isRefining = s.isRefining ∧
    (getAiAnswer s r3).1.isRefining = s.isRefining ∧
    (sendAudioForProcessing s r1).1.isRefining = s.isRefining ∧
    (stopRecording s).1.isRefining = s.isRefining ∧
    transcribeBusy s = answerBusy s := by
  have hbeg : (handleRefineQuestionBegin s).1.isLoading = s.isLoading := by
    by_cases h : s.transcribedText = "" <;> simp [handleRefineQuestionBegin, h]
  refine ⟨hbeg, ?_, ?_, ?_, ?_, ?_, rfl⟩
  · by_cases h : s.transcribedText = ""
    · simp [handleRefineQuestion, handleRefineQuestionBegin, h]
    · have hb : handleRefineQuestionBegin s =
          ({ s with
              isRefining := true
              statusMessage := "Refining question with Gemini..."
              refinedQuestion := "" },
           some { contents := [{ role := "user",
                                 parts := [{ text := refineInstruction s.transcribedText }] }] }) := by
        simp [handleRefineQuestionBegin, h]
      have hframe := (handleRefineQuestionResolve_frame
        ({ s with
            isRefining := true
            statusMessage := "Refining question with Gemini..."
            refinedQuestion := "" }) r2).1
      simp only [handleRefineQuestion, hb]
      simpa using hframe
  · by_cases h : jsOrString s.refinedQuestion s.transcribedText = "" <;>
      simp [getAiAnswerBegin, h]
  · by_cases h : jsOrString s.refinedQuestion s.transcribedText = ""
    · simp [getAiAnswer, getAiAnswerBegin, h]
    · cases r3 <;> simp [getAiAnswer, getAiAnswerBegin, getAiAnswerResolve, h]
  · by_cases h : (List.map List.length s.audioChunks).sum = 0
    · simp [sendAudioForProcessing, h]
    · cases r1 <;> simp [sendAudioForProcessing, h]
  · rcases hrec : s.mediaRecorder with _ | r
    · simp [stopRecording, hrec]
    · cases r <;> simp [stopRecording, hrec]

/-- When the Gemini success body fails the code's usable-candidate check,
the continuation writes the "no valid refinement" status and clears the
refining flag, changing nothing else. -/
theorem handleRefineQuestionResolve_noUsable (s : AppState) (body : GeminiBody)
    (h : hasUsableCandidate body = false) :
    handleRefineQuestionResolve s (FetchResult.ok body) =
      { s with
          statusMessage := "Gemini did not return a valid refinement. Try again."
          isRefining := false } := by
  cases hc : body.candidates with
  | none => simp [handleRefineQuestionResolve, hc]
  | some cands =>
      cases cands with
      | nil => simp [handleRefineQuestionResolve, hc]
      | cons c0 rest =>
          cases hct : c0.content with
          | none => simp [handleRefineQuestionResolve, hc, hct]
          | some ct =>
              cases hp : ct.parts with
              | none => simp [handleRefineQuestionResolve, hc, hct, hp]
              | some ps =>
                  cases ps with
                  | nil => simp [handleRefineQuestionResolve, hc, hct, hp]
                  | cons p0 pr => simp [hasUsableCandidate, hc, hct, hp] at h

/-- C8 fails as stated: a well-formed success body whose only candidate has
one part without a `text` field contains no candidate with text, yet the
code's check (which only tests that the parts array is non-empty) passes,
so the StatusMessage reports success instead of signalling that no valid
refinement was returned (the refined field is set to the absent value,
i.e. stays empty). -/
theorem refineTextlessPartReportsSuccess :
    bodyHasCandidateWithText c8Body = false ∧
    (handleRefineQuestion answeredState (FetchResult.ok c8Body)).1.statusMessage =
      "Question refined by Gemini! You can now get an AI answer." ∧
    (handleRefineQuestion answeredState (FetchResult.ok c8Body)).1.statusMessage ≠
      "Gemini did not return a valid refinement. Try again." ∧
    (handleRefineQuestion answeredState (FetchResult.ok c8Body)).1.refinedQuestion = "" := by
  decide

/-- C8 as amended: when the refine stage ran (non-empty transcript) and the
success body fails the code's candidate check — the `candidates` array is
absent or empty, or its first candidate lacks `content` or `parts` or has
an empty parts array — the refined field ends empty, the StatusMessage is
the "no valid refinement" message, the busy flag is cleared and everything
else (the transcript in particular) is unchanged; no error is raised.
(When the first candidate's first part exists but merely lacks `text`, the
code instead takes the success branch: see the counterexample.) -/
theorem refineNoUsableCandidateSoftFailure (s : AppState) (body : GeminiBody)
    (h1 : s.transcribedText ≠ "") (h2 : hasUsableCandidate body = false) :
    (handleRefineQuestion s (FetchResult.ok body)).1 =
      { s with
          statusMessage := "Gemini did not return a valid refinement. Try again."
          refinedQuestion := ""
          isRefining := false } := by
  have hb : handleRefineQuestionBegin s =
      ({ s with
          isRefining := true
          statusMessage := "Refining question with Gemini..."
          refinedQuestion := "" },
       some { contents := [{ role := "user",
                             parts := [{ text := refineInstruction s.transcribedText }] }] }) := by
    simp [handleRefineQuestionBegin, h1]
  simp only [handleRefineQuestion, hb]
  rw [handleRefineQuestionResolve_noUsable _ _ h2]

theorem refineNoUsableCandidateSoftFailureWitness :
    answeredState.transcribedText ≠ "" ∧
    hasUsableCandidate c8EmptyBody = false ∧
    (handleRefineQuestion answeredState (FetchResult.ok c8EmptyBody)).1 =
      { answeredState with
          statusMessage := "Gemini did not return a valid refinement. Try again."
          refinedQuestion := ""
          isRefining := false } :=
  ⟨by decide, rfl,
   refineNoUsableCandidateSoftFailure answeredState c8EmptyBody (by decide) rfl⟩

/-- C9: when the transcription stage runs on a non-empty payload with an
empty transcript and the service responds `500` with body message "boom",
the final StatusMessage contains the substring "boom", the transcript field
remains empty and the stage's busy flag is cleared. -/
theorem sttServerErrorSurfacesBoom (s : AppState) (statusText : String)
    (h1 : s.audioChunks.flatten.length ≠ 0) (h2 : s.transcribedText = "") :
    strContains (sendAudioForProcessing s
        (FetchResult.httpError 500 statusText (some "boom"))).1.statusMessage "boom" = true ∧
    (sendAudioForProcessing s
        (FetchResult.httpError 500 statusText (some "boom"))).1.transcribedText = "" ∧
    (sendAudioForProcessing s
        (FetchResult.httpError 500 statusText (some "boom"))).1.isLoading = false := by
  have h1' : (List.map List.length s.audioChunks).sum ≠ 0 := by
    simpa [List.length_flatten] using h1
  have hmsg : (sendAudioForProcessing s (FetchResult.httpError 500 statusText (some "boom"))).1 =
      { s with
          statusMessage := "Error during transcription: STT API error: 500 - boom. Please try again."
          isLoading := false
          audioChunks := [] } := by
    simp [sendAudioForProcessing, h1', errMsgFrom, jsOrOpt, jsOrString]
    decide
  rw [hmsg]
  refine ⟨?_, h2, rfl⟩
  show strContains "Error during transcription: STT API error: 500 - boom. Please try again." "boom" = true
  decide

theorem sttServerErrorSurfacesBoomWitness :
    recordedState.audioChunks.flatten.length ≠ 0 ∧
    recordedState.transcribedText = "" ∧
    (strContains (sendAudioForProcessing recordedState
        (FetchResult.httpError 500 "Internal Server Error" (some "boom"))).1.statusMessage "boom" = true ∧
     (sendAudioForProcessing recordedState
        (FetchResult.httpError 500 "Internal Server Error" (some "boom"))).1.transcribedText = "" ∧
     (sendAudioForProcessing recordedState
        (FetchResult.httpError 500 "Internal Server Error" (some "boom"))).1.isLoading = false) :=
  ⟨by decide, rfl,
   sttServerErrorSurfacesBoom recordedState "Internal Server Error" (by decide) rfl⟩
